import Mathlib

/-!
Shallow embedding of src/src/main.cpp: an Arduino sketch driving two servos
(Y and Z) that executes gesture sequences (Scroll, Like with two variants,
Dubious) either manually, by live potentiometer passthrough, or autonomously
via a semi-Markov process.  Times are modelled as naturals (milliseconds),
float values as rationals, servo writes as an accumulating log.
Randomness is passed in explicitly: every call of the Arduino random(lo, hi)
primitive receives a raw draw n and returns lo + n % (hi - lo).
-/

namespace TpMovimiento

/-- Servo output channel: myservo_y or myservo_z. -/
inductive ServoChannel
  | y
  | z
deriving DecidableEq, Repr

/-- Three-slot array indexed by the state codes 0, 1, 2 (after_scroll,
after_like, after_dubious).  Indices beyond 2 map to the last slot; the
program only ever stores 0, 1 or 2 in current_state. -/
structure StateArr (α : Type) where
  s0 : α
  s1 : α
  s2 : α
deriving DecidableEq, Repr

def StateArr.get {α : Type} (t : StateArr α) (i : ℕ) : α :=
  match i with
  | 0 => t.s0
  | 1 => t.s1
  | _ => t.s2

def StateArr.update {α : Type} (t : StateArr α) (i : ℕ) (f : α → α) : StateArr α :=
  match i with
  | 0 => { t with s0 := f t.s0 }
  | 1 => { t with s1 := f t.s1 }
  | _ => { t with s2 := f t.s2 }

/-- Arduino random(lo, hi): a value in [lo, hi), here lo + n % (hi - lo)
for a raw draw n supplied by the environment. -/
def arduinoRandom (lo hi n : ℕ) : ℕ := lo + n % (hi - lo)

-- Constants from main.cpp.

def scroll_step_delays : ℕ → ℕ := fun i => [200, 300, 300, 0, 200].getD i 0

def like_step_delay : ℕ := 100

def dubious_step_delay : ℕ := 200

def dubious_wait_min : ℕ := 500

def dubious_wait_max : ℕ := 2000

def MAX_DWELL_TIME : ℚ := 30

def STATE_AFTER_SCROLL : ℕ := 0

def STATE_AFTER_LIKE : ℕ := 1

def STATE_AFTER_DUBIOUS : ℕ := 2

def ACTION_SCROLL : ℕ := 0

def ACTION_LIKE : ℕ := 1

def ACTION_DUBIOUS_SCROLL : ℕ := 2

def num_readings : ℕ := 5

/-- The global mutable state of the sketch (the file-scope variables of
main.cpp that the control loop reads and writes).  The writes field logs
every myservo_y.write / myservo_z.write call, most recent first. -/
structure MachineState where
  readings_y : List ℤ
  readings_z : List ℤ
  read_index : ℕ
  total_y : ℤ
  total_z : ℤ
  prev_angle_y : ℤ
  prev_angle_z : ℤ
  scroll_active : Bool
  like_active : Bool
  dubious_active : Bool
  knobs_disabled : Bool
  scroll_step : ℕ
  like_step : ℕ
  dubious_step : ℕ
  last_step_time : ℕ
  dubious_wait_time : ℕ
  current_y : ℤ
  current_z : ℤ
  target_y : ℤ
  target_z : ℤ
  start_y : ℤ
  start_z : ℤ
  step_start_time : ℕ
  step_in_progress : Bool
  simulation_start_time : ℕ
  event_counter : ℕ
  current_state : ℕ
  total_dwell_time : ℚ
  use_like2_variant : Bool
  smm_mode_active : Bool
  smm_waiting : Bool
  smm_wait_start : ℕ
  smm_wait_duration : ℕ
  state_transitions : StateArr ℕ
  total_dwell_by_state : StateArr ℚ
  writes : List (ServoChannel × ℤ)
deriving DecidableEq, Repr

/-- myservo_y.write(v). -/
def writeY (s : MachineState) (v : ℤ) : MachineState :=
  { s with writes := (ServoChannel.y, v) :: s.writes }

/-- myservo_z.write(v). -/
def writeZ (s : MachineState) (v : ℤ) : MachineState :=
  { s with writes := (ServoChannel.z, v) :: s.writes }

/-- Truncation toward zero, the semantics of the C cast (int) applied to a
float value. -/
def ratTrunc (x : ℚ) : ℤ := if 0 ≤ x then ⌊x⌋ else ⌈x⌉

/-- smoothMoveServos from main.cpp: captures the current position as the
start of a new interpolated move and marks it in progress.  The source
accepts a duration_ms argument but never stores or reads it. -/
def smoothMoveServos (s : MachineState) (new_target_y new_target_z : ℤ)
    (duration_ms : ℕ) (now : ℕ) : MachineState :=
  { s with
    start_y := s.current_y
    start_z := s.current_z
    target_y := new_target_y
    target_z := new_target_z
    step_start_time := now
    step_in_progress := true }

/-- updateServoPositions from main.cpp: advances the in-progress
interpolated move at time now.  The duration comes from
scroll_step_delays[scroll_step], guarded against scroll_step >= 5. -/
def updateServoPositions (s : MachineState) (now : ℕ) : MachineState :=
  if !s.step_in_progress then s
  else
    let elapsed : ℕ := now - s.step_start_time
    if 5 ≤ s.scroll_step then { s with step_in_progress := false }
    else
      let duration : ℕ := scroll_step_delays s.scroll_step
      if duration ≤ elapsed then
        let s := { s with current_y := s.target_y, current_z := s.target_z }
        let s := writeY s s.current_y
        let s := writeZ s s.current_z
        { s with step_in_progress := false }
      else
        let progress : ℚ := (elapsed : ℚ) / (duration : ℚ)
        let s := { s with
          current_y := s.start_y + ratTrunc (((s.target_y - s.start_y) : ℚ) * progress)
          current_z := s.start_z + ratTrunc (((s.target_z - s.start_z) : ℚ) * progress) }
        let s := writeY s s.current_y
        writeZ s s.current_z

/-- random_uniform from main.cpp: random(0, 32768) / 32767.0f, for a raw
draw n. -/
def random_uniform (n : ℕ) : ℚ := ((n % 32768 : ℕ) : ℚ) / 32767

/-- sample_exponential from main.cpp, with the uniform value u passed in
(the source obtains it by calling random_uniform). -/
def sample_exponential (rate : ℚ) (u0 : ℚ) : ℚ :=
  let u := if u0 ≤ 1 / 10000 then 1 / 10000 else u0
  let sample := if 9999 / 10000 < u then 1 / 10 else (1 - u) / rate
  let sample := if MAX_DWELL_TIME < sample then MAX_DWELL_TIME else sample
  if sample < 1 / 10 then 1 / 10 else sample

/-- Modelled from the spec: the configuration header smm_parameters.h is an
external collaborator (per-state dwell rate and cumulative action
probability tables, loaded once and immutable at runtime); it is not part
of the core sources, so the tables are a parameter of the embedding. -/
structure SmmConfig where
  DWELL_RATE_BY_STATE : StateArr ℚ
  CUM_PROB_SCROLL_BY_STATE : StateArr ℚ
  CUM_PROB_LIKE_BY_STATE : StateArr ℚ
deriving DecidableEq, Repr

/-- Modelled from the spec: a concrete configuration instance whose
after_scroll row uses the example cumulative thresholds from the spec
(Scroll 0.6, Like 0.8) and unit dwell rates. -/
def specConfig : SmmConfig :=
  { DWELL_RATE_BY_STATE := ⟨1, 1, 1⟩
    CUM_PROB_SCROLL_BY_STATE := ⟨3 / 5, 3 / 5, 3 / 5⟩
    CUM_PROB_LIKE_BY_STATE := ⟨4 / 5, 4 / 5, 4 / 5⟩ }

/-- select_next_action from main.cpp, with the uniform value r passed in. -/
def select_next_action (cfg : SmmConfig) (state : ℕ) (r : ℚ) : ℕ :=
  if r < cfg.CUM_PROB_SCROLL_BY_STATE.get state then ACTION_SCROLL
  else if r < cfg.CUM_PROB_LIKE_BY_STATE.get state then ACTION_LIKE
  else ACTION_DUBIOUS_SCROLL

/-- execute_smm_action from main.cpp: bumps the event counter and the
transition counter of the pre-transition state, then starts the gesture
for the selected action and moves current_state to the matching state.
The coin draw feeds random(0, 2) for the Like variant choice. -/
def execute_smm_action (s : MachineState) (action_code : ℕ) (now coin : ℕ) :
    MachineState :=
  let s := { s with
    event_counter := s.event_counter + 1
    state_transitions := s.state_transitions.update s.current_state (· + 1) }
  if action_code = ACTION_SCROLL then
    { s with
      scroll_active := true
      scroll_step := 0
      knobs_disabled := true
      current_state := STATE_AFTER_SCROLL }
  else if action_code = ACTION_LIKE then
    { s with
      use_like2_variant := arduinoRandom 0 2 coin == 1
      like_active := true
      like_step := 0
      last_step_time := now
      knobs_disabled := true
      current_state := STATE_AFTER_LIKE }
  else if action_code = ACTION_DUBIOUS_SCROLL then
    { s with
      dubious_active := true
      dubious_step := 0
      dubious_wait_time := 0
      last_step_time := now
      knobs_disabled := true
      current_state := STATE_AFTER_DUBIOUS }
  else s

/-- executeScroll from main.cpp: drives the interpolator, and when no move
is in progress starts the next scroll step or finishes the gesture. -/
def executeScroll (s : MachineState) (now : ℕ) : MachineState :=
  let s := updateServoPositions s now
  if s.step_in_progress then s
  else if s.scroll_step = 0 then
    let s := smoothMoveServos s 142 142 (scroll_step_delays s.scroll_step) now
    { s with scroll_step := s.scroll_step + 1 }
  else if s.scroll_step = 1 then
    let s := smoothMoveServos s 110 142 (scroll_step_delays s.scroll_step) now
    { s with scroll_step := s.scroll_step + 1 }
  else if s.scroll_step = 2 then
    let s := smoothMoveServos s 90 100 (scroll_step_delays s.scroll_step) now
    { s with scroll_step := s.scroll_step + 1 }
  else if s.scroll_step = 3 then
    let s := smoothMoveServos s 147 100 (scroll_step_delays s.scroll_step) now
    { s with scroll_step := s.scroll_step + 1 }
  else if s.scroll_step = 4 then { s with scroll_active := false, scroll_step := 0 }
  else { s with scroll_step := s.scroll_step + 1 }

/-- The step advance at the bottom of the executeLike switch: increment
like_step and record the step time. -/
def likeAdv (now : ℕ) (t : MachineState) : MachineState :=
  { t with like_step := t.like_step + 1, last_step_time := now }

/-- The terminal Like step: final servo write, deactivate, permanently
disable the knobs, reset the step index. -/
def likeFinish (t : MachineState) : MachineState :=
  { writeY t 140 with like_active := false, knobs_disabled := true, like_step := 0 }

/-- executeLike from main.cpp: the five-step Like variant, gated on
like_step_delay since the previous step. -/
def executeLike (s : MachineState) (now : ℕ) : MachineState :=
  if like_step_delay ≤ now - s.last_step_time then
    if s.like_step = 0 then likeAdv now (writeZ (writeY s 140) 120)
    else if s.like_step = 1 then likeAdv now (writeY s 120)
    else if s.like_step = 2 then likeAdv now (writeY s 140)
    else if s.like_step = 3 then likeAdv now (writeY s 120)
    else if s.like_step = 4 then likeFinish s
    else likeAdv now s
  else s

/-- The terminal step of executeLike2: final servo writes, deactivate,
permanently disable the knobs, reset the step index. -/
def like2Finish (t : MachineState) : MachineState :=
  { writeZ (writeY t 152) 110 with
    like_active := false, knobs_disabled := true, like_step := 0 }

/-- executeLike2 from main.cpp: the three-step Like variant. -/
def executeLike2 (s : MachineState) (now : ℕ) : MachineState :=
  if like_step_delay ≤ now - s.last_step_time then
    if s.like_step = 0 then likeAdv now (writeZ (writeY s 152) 110)
    else if s.like_step = 1 then likeAdv now (writeZ (writeY s 120) 110)
    else if s.like_step = 2 then like2Finish s
    else likeAdv now s
  else s

/-- The step advance at the bottom of the executeDubious switch. -/
def dubiousAdv (now : ℕ) (t : MachineState) : MachineState :=
  { t with dubious_step := t.dubious_step + 1, last_step_time := now }

/-- A Dubious random-wait step (steps 3 and 5): arm a fresh sample when
unarmed, otherwise wait for it to elapse and then clear it and advance. -/
def dubiousWaitStep (now r1 : ℕ) (t : MachineState) : MachineState :=
  if t.dubious_wait_time = 0 then
    { t with
      dubious_wait_time := arduinoRandom dubious_wait_min (dubious_wait_max + 1) r1
      last_step_time := now }
  else if t.dubious_wait_time ≤ now - t.last_step_time then
    dubiousAdv now { t with dubious_wait_time := 0 }
  else t

/-- The terminal Dubious step: final servo writes, deactivate, permanently
disable the knobs, reset the step index. -/
def dubiousFinish (t : MachineState) : MachineState :=
  { writeZ (writeY t 145) 122 with
    dubious_active := false, knobs_disabled := true, dubious_step := 0 }

/-- executeDubious from main.cpp: eight steps, two of which (3 and 5) are
random waits sampled by random(dubious_wait_min, dubious_wait_max + 1)
from the raw draw r1, armed in dubious_wait_time and cleared on expiry. -/
def executeDubious (s : MachineState) (now r1 : ℕ) : MachineState :=
  if dubious_step_delay ≤ now - s.last_step_time then
    if s.dubious_step = 0 then dubiousAdv now (writeZ (writeY s 145) 122)
    else if s.dubious_step = 1 then dubiousAdv now (writeZ (writeY s 125) 122)
    else if s.dubious_step = 2 then dubiousAdv now (writeZ (writeY s 122) 106)
    else if s.dubious_step = 3 then dubiousWaitStep now r1 s
    else if s.dubious_step = 4 then dubiousAdv now (writeZ (writeY s 122) 134)
    else if s.dubious_step = 5 then dubiousWaitStep now r1 s
    else if s.dubious_step = 6 then dubiousAdv now (writeZ (writeY s 122) 106)
    else if s.dubious_step = 7 then dubiousFinish s
    else dubiousAdv now s
  else s

/-- Arduino map(x, in_min, in_max, out_min, out_max). -/
def map_arduino (x in_min in_max out_min out_max : ℤ) : ℤ :=
  (x - in_min) * (out_max - out_min) / (in_max - in_min) + out_min

/-- The potentiometer passthrough block of loop(): moving-average smoothing
of the two analog inputs, mapping to servo angles, writing on change. -/
def passthrough (s : MachineState) (pot_y pot_z : ℤ) : MachineState :=
  let total_y := s.total_y - s.readings_y.getD s.read_index 0
  let total_z := s.total_z - s.readings_z.getD s.read_index 0
  let readings_y := s.readings_y.set s.read_index pot_y
  let readings_z := s.readings_z.set s.read_index pot_z
  let total_y := total_y + pot_y
  let total_z := total_z + pot_z
  let read_index := if num_readings ≤ s.read_index + 1 then 0 else s.read_index + 1
  let avg_y := total_y / (num_readings : ℤ)
  let avg_z := total_z / (num_readings : ℤ)
  let angle_y := map_arduino avg_y 0 1023 0 180
  let angle_z := map_arduino avg_z 0 1023 0 180
  let s := { s with
    readings_y := readings_y
    readings_z := readings_z
    read_index := read_index
    total_y := total_y
    total_z := total_z }
  let s := if angle_y ≠ s.prev_angle_y then
      { writeY s angle_y with prev_angle_y := angle_y }
    else s
  if angle_z ≠ s.prev_angle_z then
    { writeZ s angle_z with prev_angle_z := angle_z }
  else s

/-- The serial command dispatch at the top of loop(): manual gesture
starts (guarded on no gesture active), the semi-Markov mode toggle, and
the reset command. -/
def processCommand (s : MachineState) (input : Char) (now : ℕ) : MachineState :=
  if input = 's' ∨ input = 'S' then
    if !s.scroll_active && !s.like_active && !s.dubious_active then
      { s with
        scroll_active := true
        knobs_disabled := true
        scroll_step := 0
        last_step_time := now }
    else s
  else if input = 'l' ∨ input = 'L' then
    if !s.scroll_active && !s.like_active && !s.dubious_active then
      { s with
        like_active := true
        knobs_disabled := true
        like_step := 0
        last_step_time := now }
    else s
  else if input = 'd' ∨ input = 'D' then
    if !s.scroll_active && !s.like_active && !s.dubious_active then
      { s with
        dubious_active := true
        knobs_disabled := true
        dubious_step := 0
        dubious_wait_time := 0
        last_step_time := now }
    else s
  else if input = 'm' ∨ input = 'M' then
    if !s.smm_mode_active then
      { s with
        smm_mode_active := true
        simulation_start_time := now
        knobs_disabled := true }
    else
      { s with smm_mode_active := false, knobs_disabled := false }
  else if input = 'r' ∨ input = 'R' then
    { s with
      knobs_disabled := false
      smm_mode_active := false
      scroll_active := false
      like_active := false
      dubious_active := false }
  else s

/-- The semi-Markov block of loop(): when not waiting, sample a dwell from
the current state rate and arm a non-blocking wait; once the wait deadline
passes, select the next action and execute it.  r1 feeds the uniform draw
of the tick (dwell sample or action selection), r2 the Like variant coin. -/
def smmStep (cfg : SmmConfig) (s : MachineState) (now r1 r2 : ℕ) : MachineState :=
  if !s.smm_waiting then
    let dwell_rate := cfg.DWELL_RATE_BY_STATE.get s.current_state
    let dwell_time := sample_exponential dwell_rate (random_uniform r1)
    { s with
      total_dwell_time := s.total_dwell_time + dwell_time
      total_dwell_by_state := s.total_dwell_by_state.update s.current_state (· + dwell_time)
      smm_wait_start := now
      smm_wait_duration := (dwell_time * 1000).floor.toNat
      smm_waiting := true }
  else if s.smm_wait_duration ≤ now - s.smm_wait_start then
    let s := { s with smm_waiting := false }
    let action := select_next_action cfg s.current_state (random_uniform r1)
    execute_smm_action s action now r2
  else s

/-- Inputs one loop() iteration consumes from the environment: the pending
serial character if any, the current millis() value, the two analog
readings, and raw draws for the at most two random() calls of the tick. -/
structure LoopInput where
  serial : Option Char
  now : ℕ
  pot_y : ℤ
  pot_z : ℤ
  r1 : ℕ
  r2 : ℕ
deriving DecidableEq, Repr

/-- The serial-read phase at the top of loop(): process the pending
command character, if any. -/
def applySerial (s : MachineState) (inp : LoopInput) : MachineState :=
  match inp.serial with
  | some c => processCommand s c inp.now
  | none => s

/-- The body of loop() after the serial-read phase: exactly one of gesture
execution (with early return), potentiometer passthrough, and the guarded
semi-Markov block.  The like_active branch calls executeLike: the
executeLike2 call there is commented out in the source. -/
def loopTail (cfg : SmmConfig) (s : MachineState) (inp : LoopInput) : MachineState :=
  if s.scroll_active then executeScroll s inp.now
  else if s.like_active then executeLike s inp.now
  else if s.dubious_active then executeDubious s inp.now inp.r1
  else
    let s := if !s.knobs_disabled then passthrough s inp.pot_y inp.pot_z else s
    if s.smm_mode_active && !s.scroll_active && !s.like_active && !s.dubious_active
        && s.knobs_disabled then
      smmStep cfg s inp.now inp.r1 inp.r2
    else s

/-- One iteration of loop() from main.cpp. -/
def loopStep (cfg : SmmConfig) (s : MachineState) (inp : LoopInput) : MachineState :=
  loopTail cfg (applySerial s inp) inp

/-- The state setup() leaves behind: servos written to 180 and 0, the
smoothing arrays filled with the initial analog readings, every flag
cleared, current_state at after_scroll. -/
def initialState (pot_y0 pot_z0 : ℤ) : MachineState :=
  { readings_y := List.replicate num_readings pot_y0
    readings_z := List.replicate num_readings pot_z0
    read_index := 0
    total_y := pot_y0 * num_readings
    total_z := pot_z0 * num_readings
    prev_angle_y := map_arduino pot_y0 0 1023 0 180
    prev_angle_z := map_arduino pot_z0 0 1023 0 180
    scroll_active := false
    like_active := false
    dubious_active := false
    knobs_disabled := false
    scroll_step := 0
    like_step := 0
    dubious_step := 0
    last_step_time := 0
    dubious_wait_time := 0
    current_y := 180
    current_z := 0
    target_y := 180
    target_z := 0
    start_y := 180
    start_z := 0
    step_start_time := 0
    step_in_progress := false
    simulation_start_time := 0
    event_counter := 0
    current_state := STATE_AFTER_SCROLL
    total_dwell_time := 0
    use_like2_variant := false
    smm_mode_active := false
    smm_waiting := false
    smm_wait_start := 0
    smm_wait_duration := 0
    state_transitions := ⟨0, 0, 0⟩
    total_dwell_by_state := ⟨0, 0, 0⟩
    writes := [(ServoChannel.z, 0), (ServoChannel.y, 180)] }

/-- States reachable from setup() by iterating loop(). -/
inductive Reachable (cfg : SmmConfig) : MachineState → Prop
  | init (pot_y0 pot_z0 : ℤ) : Reachable cfg (initialState pot_y0 pot_z0)
  | step {s : MachineState} (inp : LoopInput) :
      Reachable cfg s → Reachable cfg (loopStep cfg s inp)

/-- Loop input with the given serial character and time, zero analog
readings and zero draws. -/
def mkInput (c : Option Char) (t : ℕ) : LoopInput :=
  { serial := c, now := t, pot_y := 0, pot_z := 0, r1 := 0, r2 := 0 }

/-- Loop input with the given serial character, time and raw draws. -/
def mkInputR (c : Option Char) (t r1 r2 : ℕ) : LoopInput :=
  { serial := c, now := t, pot_y := 0, pot_z := 0, r1 := r1, r2 := r2 }

/-- The semi-Markov-process observables of a machine state: the wait phase
bookkeeping, the event counter, the transition counters, the current state
and the dwell total. -/
def smmObs (s : MachineState) : Bool × ℕ × ℕ × ℕ × StateArr ℕ × ℕ × ℚ :=
  (s.smm_waiting, s.smm_wait_start, s.smm_wait_duration, s.event_counter,
    s.state_transitions, s.current_state, s.total_dwell_time)

/-- Number of gesture-active flags currently set. -/
def activeCount (s : MachineState) : ℕ :=
  s.scroll_active.toNat + s.like_active.toNat + s.dubious_active.toNat

/-- At most one of scroll_active, like_active, dubious_active is set. -/
def atMostOneGesture (s : MachineState) : Prop := activeCount s ≤ 1

/-- Autonomous mode being active forces the knob passthrough off. -/
def modeImpliesKnobs (s : MachineState) : Prop :=
  s.smm_mode_active = true → s.knobs_disabled = true

/-- Scenario: manual Like started at t = 1000 and stepped to completion by
five ticks at 1100..1500 (its terminal step disables the knobs). -/
def likeDoneState : MachineState :=
  loopStep specConfig
    (loopStep specConfig
      (loopStep specConfig
        (loopStep specConfig
          (loopStep specConfig
            (loopStep specConfig (initialState 0 0) (mkInput (some 'l') 1000))
            (mkInput none 1100))
          (mkInput none 1200))
        (mkInput none 1300))
      (mkInput none 1400))
    (mkInput none 1500)

/-- Scenario: after the Like completion, toggle semi-Markov mode on at
t = 1600 and off again at t = 1700, with no reset command in between. -/
def afterToggleOnOff : MachineState :=
  loopStep specConfig (loopStep specConfig likeDoneState (mkInput (some 'm') 1600))
    (mkInput (some 'm') 1700)

/-- Scenario: the semi-Markov process fires the Like action with coin draw
1, which selects variant 2 (use_like2_variant = true). -/
def likeFiredState : MachineState :=
  execute_smm_action
    { initialState 0 0 with smm_mode_active := true, knobs_disabled := true }
    ACTION_LIKE 0 1

/-- Scenario: three loop ticks (t = 100, 200, 300) after the Like action
fired with variant 2 selected. -/
def likeFiredRun3 : MachineState :=
  loopStep specConfig
    (loopStep specConfig (loopStep specConfig likeFiredState (mkInput none 100))
      (mkInput none 200))
    (mkInput none 300)

/-- Scenario: the same three ticks driven through executeLike2, the
variant the coin actually selected. -/
def like2Run3 : MachineState :=
  executeLike2 (executeLike2 (executeLike2 likeFiredState 100) 200) 300

/-- Scenario: autonomous mode active in state after_scroll, no gesture
running, about to begin a dwell. -/
def smmCycleStart : MachineState :=
  { initialState 0 0 with smm_mode_active := true, knobs_disabled := true }

/-- Scenario: the dwell-sampling tick at t = 0 with draw 32767 (u = 1, so
the sampled dwell is the 0.1 floor and the wait duration is 100 ms). -/
def smmCycleMid : MachineState :=
  loopStep specConfig smmCycleStart (mkInputR none 0 32767 0)

/-- Scenario: the action tick at t = 100 with draw 24576 (r of about 0.75,
selecting Like under the spec example thresholds) and coin draw 0. -/
def smmCycleEnd : MachineState :=
  loopStep specConfig smmCycleMid (mkInputR none 100 24576 0)

/-- Scenario: a Scroll interpolated move begun at t = 1000 from position
(100, 100): step 0 requests targets (142, 142) with duration
scroll_step_delays[0] = 200 and advances scroll_step to 1. -/
def scrollMoveBegun : MachineState :=
  executeScroll
    { initialState 0 0 with scroll_active := true, current_y := 100, current_z := 100 }
    1000

/-- Scenario: the interpolator ticked at t = 1250, 250 ms after the move
began and past its requested 200 ms duration. -/
def scrollMoveTick : MachineState := updateServoPositions scrollMoveBegun 1250

/-- Clamping an if-below at 1/10 is a max. -/
theorem ifclamp_lo (x : ℚ) :
    (if x < 1 / 10 then (1 : ℚ) / 10 else x) = max x (1 / 10) := by
  rcases le_total x (1 / 10) with h | h
  · rw [max_eq_right h]
    split_ifs <;> linarith
  · rw [max_eq_left h, if_neg (not_lt.mpr h)]

/-- Clamping an if-above at 30 is a min. -/
theorem ifclamp_hi (x : ℚ) :
    (if (30 : ℚ) < x then (30 : ℚ) else x) = min x 30 := by
  rcases le_total x 30 with h | h
  · rw [min_eq_left h, if_neg (not_lt.mpr h)]
  · rw [min_eq_right h]
    split_ifs <;> linarith

/-- C5: for every rate > 0 and uniform value u in [0, 1], sample_exponential
returns a value in [0.1, MAX_DWELL_TIME = 30]; a draw with u > 0.9999
returns the fixed value 0.1; otherwise the result is (1 - u) / rate with u
clamped up to the 0.0001 floor and the quotient clamped into [0.1, 30]; in
particular u = 0.5 with rate = 1 returns 0.5. -/
theorem sample_exponential_spec (rate u : ℚ) (hrate : 0 < rate)
    (hu0 : 0 ≤ u) (hu1 : u ≤ 1) :
    (1 / 10 ≤ sample_exponential rate u ∧ sample_exponential rate u ≤ MAX_DWELL_TIME) ∧
    (9999 / 10000 < u → sample_exponential rate u = 1 / 10) ∧
    (u ≤ 9999 / 10000 →
      sample_exponential rate u =
        max (min ((1 - max u (1 / 10000)) / rate) MAX_DWELL_TIME) (1 / 10)) ∧
    sample_exponential 1 (1 / 2) = 1 / 2 := by
  refine ⟨?_, ?_, ?_, ?_⟩
  · dsimp only [sample_exponential, MAX_DWELL_TIME]
    split_ifs <;> constructor <;> linarith
  · intro hbig
    dsimp only [sample_exponential, MAX_DWELL_TIME]
    split_ifs <;> linarith
  · intro hsmall
    have huc : (if u ≤ (1 : ℚ) / 10000 then (1 : ℚ) / 10000 else u) = max u (1 / 10000) :=
      (max_def u (1 / 10000)).symm
    have h9 : ¬((9999 : ℚ) / 10000 < max u (1 / 10000)) :=
      not_lt.mpr (max_le hsmall (by norm_num))
    simp only [sample_exponential, MAX_DWELL_TIME, huc, if_neg h9]
    rw [ifclamp_hi, ifclamp_lo]
  · norm_num [sample_exponential, MAX_DWELL_TIME]

/-- Witness for sample_exponential_spec at rate = 1, u = 1/2. -/
theorem sample_exponential_spec_witness :
    (0 : ℚ) < 1 ∧ (0 : ℚ) ≤ 1 / 2 ∧ (1 : ℚ) / 2 ≤ 1 ∧
    sample_exponential 1 (1 / 2) = 1 / 2 :=
  ⟨one_pos, one_half_pos.le, one_half_lt_one.le,
    (sample_exponential_spec 1 (1 / 2) one_pos one_half_pos.le one_half_lt_one.le).2.2.2⟩

/-- C4 counterexample: a tick of the Like sequencer with the step index
already out of range (like_step = 5) does not clamp or deactivate: it
advances the index to 6 and leaves the gesture active. -/
theorem out_of_range_like_step_advances :
    (executeLike
        { initialState 0 0 with like_active := true, knobs_disabled := true, like_step := 5 }
        100).like_step = 6 ∧
    (executeLike
        { initialState 0 0 with like_active := true, knobs_disabled := true, like_step := 5 }
        100).like_active = true := by
  constructor <;> decide

/-- C4 amended: only the motion interpolator guards an out-of-range step
index (scroll_step at or beyond 5 clears the in-progress flag without
reading the delay table); the switch-based gesture tick functions read no
step table out of bounds on an out-of-range index (no case matches, so no
servo write occurs), but they do not deactivate: once the inter-step delay
has elapsed they advance the step index further and leave the active flag
as it was. -/
theorem out_of_range_step_guarding (s : MachineState) (now r1 : ℕ) :
    (s.step_in_progress = true → 5 ≤ s.scroll_step →
      updateServoPositions s now = { s with step_in_progress := false }) ∧
    (5 ≤ s.scroll_step →
      executeScroll s now =
        { updateServoPositions s now with scroll_step := s.scroll_step + 1 }) ∧
    (5 ≤ s.like_step → like_step_delay ≤ now - s.last_step_time →
      executeLike s now = { s with like_step := s.like_step + 1, last_step_time := now }) ∧
    (8 ≤ s.dubious_step → dubious_step_delay ≤ now - s.last_step_time →
      executeDubious s now r1 =
        { s with dubious_step := s.dubious_step + 1, last_step_time := now }) := by
  refine ⟨?_, ?_, ?_, ?_⟩
  · intro hip h5
    simp [updateServoPositions, hip, h5]
  · intro h5
    have h0 : s.scroll_step ≠ 0 := by omega
    have h1 : s.scroll_step ≠ 1 := by omega
    have h2 : s.scroll_step ≠ 2 := by omega
    have h3 : s.scroll_step ≠ 3 := by omega
    have h4 : s.scroll_step ≠ 4 := by omega
    by_cases hip : s.step_in_progress
    · simp [executeScroll, updateServoPositions, hip, h5, h0, h1, h2, h3, h4]
    · simp [executeScroll, updateServoPositions, hip, h5, h0, h1, h2, h3, h4]
  · intro h5 hgate
    have h0 : s.like_step ≠ 0 := by omega
    have h1 : s.like_step ≠ 1 := by omega
    have h2 : s.like_step ≠ 2 := by omega
    have h3 : s.like_step ≠ 3 := by omega
    have h4 : s.like_step ≠ 4 := by omega
    simp [executeLike, likeAdv, hgate, h0, h1, h2, h3, h4]
  · intro h8 hgate
    have h0 : s.dubious_step ≠ 0 := by omega
    have h1 : s.dubious_step ≠ 1 := by omega
    have h2 : s.dubious_step ≠ 2 := by omega
    have h3 : s.dubious_step ≠ 3 := by omega
    have h4 : s.dubious_step ≠ 4 := by omega
    have h5 : s.dubious_step ≠ 5 := by omega
    have h6 : s.dubious_step ≠ 6 := by omega
    have h7 : s.dubious_step ≠ 7 := by omega
    simp [executeDubious, dubiousAdv, hgate, h0, h1, h2, h3, h4, h5, h6, h7]

/-- Witness for out_of_range_step_guarding at a concrete out-of-range
state. -/
theorem out_of_range_step_guarding_witness :
    (5 ≤ (6 : ℕ) ∧ like_step_delay ≤ 100 - 0) ∧
    executeLike { initialState 0 0 with like_active := true, like_step := 6 } 100 =
      { initialState 0 0 with
        like_active := true, like_step := 7, last_step_time := 100 } :=
  ⟨⟨by decide, by decide⟩,
    (out_of_range_step_guarding
        { initialState 0 0 with like_active := true, like_step := 6 } 100 0).2.2.1
      (by decide) (by decide)⟩

/-- C8: in a Dubious random-wait step (step 3 or 5), the sampled duration
lies in [dubious_wait_min, dubious_wait_max] = [500, 2000] inclusive; an
unarmed gated tick stores a fresh sample from this tick draw and does not
advance the step; once armed, any tick before the stored duration elapses
changes nothing (no re-sample, no advance); once it elapses the stored
duration is cleared and the step advances by one. -/
theorem dubious_random_wait_spec (s : MachineState) (now r1 : ℕ)
    (hstep : s.dubious_step = 3 ∨ s.dubious_step = 5) :
    (dubious_wait_min ≤ arduinoRandom dubious_wait_min (dubious_wait_max + 1) r1 ∧
      arduinoRandom dubious_wait_min (dubious_wait_max + 1) r1 ≤ dubious_wait_max) ∧
    (s.dubious_wait_time = 0 → dubious_step_delay ≤ now - s.last_step_time →
      executeDubious s now r1 =
        { s with
          dubious_wait_time := arduinoRandom dubious_wait_min (dubious_wait_max + 1) r1
          last_step_time := now }) ∧
    (s.dubious_wait_time ≠ 0 → now - s.last_step_time < s.dubious_wait_time →
      executeDubious s now r1 = s) ∧
    (s.dubious_wait_time ≠ 0 → dubious_step_delay ≤ now - s.last_step_time →
      s.dubious_wait_time ≤ now - s.last_step_time →
      executeDubious s now r1 =
        { s with
          dubious_wait_time := 0
          dubious_step := s.dubious_step + 1
          last_step_time := now }) := by
  have hrange : dubious_wait_min ≤ arduinoRandom dubious_wait_min (dubious_wait_max + 1) r1 ∧
      arduinoRandom dubious_wait_min (dubious_wait_max + 1) r1 ≤ dubious_wait_max := by
    have : r1 % 1501 < 1501 := Nat.mod_lt _ (by decide)
    simp only [arduinoRandom, dubious_wait_min, dubious_wait_max]
    omega
  refine ⟨hrange, ?_, ?_, ?_⟩
  · intro harm hgate
    rcases hstep with h | h <;>
      simp [executeDubious, dubiousWaitStep, h, hgate, harm]
  · intro hwt hlt
    by_cases hgate : dubious_step_delay ≤ now - s.last_step_time
    · rcases hstep with h | h <;>
        simp [executeDubious, dubiousWaitStep, h, hgate, hwt, Nat.not_le.mpr hlt]
    · simp [executeDubious, hgate]
  · intro hwt hgate hdone
    rcases hstep with h | h <;>
      simp [executeDubious, dubiousWaitStep, dubiousAdv, h, hgate, hwt, hdone]

/-- Witness for dubious_random_wait_spec: arming step 3 at a concrete
state with draw 7 stores 507 and keeps the step at 3. -/
theorem dubious_random_wait_spec_witness :
    ((3 : ℕ) = 3 ∨ (3 : ℕ) = 5) ∧
    executeDubious
        { initialState 0 0 with dubious_active := true, dubious_step := 3 } 200 7 =
      { initialState 0 0 with
        dubious_active := true
        dubious_step := 3
        dubious_wait_time := arduinoRandom dubious_wait_min (dubious_wait_max + 1) 7
        last_step_time := 200 } :=
  ⟨Or.inl rfl,
    (dubious_random_wait_spec
        { initialState 0 0 with dubious_active := true, dubious_step := 3 } 200 7
        (Or.inl rfl)).2.1 (by decide) (by decide)⟩

/-- C1: the semi-Markov Like action flips the variant coin and records
variant 2 (use_like2_variant = true), but the loop drives executeLike (the
5-step variant 1) regardless: after the three ticks in which the selected
executeLike2 would have completed, the gesture is still active at step 3 of
variant 1, while executeLike2 itself would have finished. -/
theorem like_variant_coin_ignored :
    likeFiredState.use_like2_variant = true ∧
    likeFiredState.like_active = true ∧
    likeFiredRun3.like_active = true ∧
    likeFiredRun3.like_step = 3 ∧
    like2Run3.like_active = false := by
  refine ⟨?_, ?_, ?_, ?_, ?_⟩ <;> decide

/-- C2 counterexample: a manual Like runs to completion (which disables the
knobs), then toggling semi-Markov mode on and off again, with no reset
command, leaves knobs_disabled = false: the passthrough is re-enabled by
the mode-off toggle alone. -/
theorem knobs_reenabled_by_mode_toggle :
    likeDoneState.like_active = false ∧
    likeDoneState.knobs_disabled = true ∧
    afterToggleOnOff.smm_mode_active = false ∧
    afterToggleOnOff.knobs_disabled = false := by
  refine ⟨?_, ?_, ?_, ?_⟩ <;> decide

/-- Field effects of updateServoPositions: only the interpolation fields
and the write log change. -/
theorem updateServoPositions_effects (s : MachineState) (now : ℕ) :
    (updateServoPositions s now).smm_waiting = s.smm_waiting ∧
    (updateServoPositions s now).smm_wait_start = s.smm_wait_start ∧
    (updateServoPositions s now).smm_wait_duration = s.smm_wait_duration ∧
    (updateServoPositions s now).event_counter = s.event_counter ∧
    (updateServoPositions s now).state_transitions = s.state_transitions ∧
    (updateServoPositions s now).current_state = s.current_state ∧
    (updateServoPositions s now).total_dwell_time = s.total_dwell_time ∧
    (updateServoPositions s now).smm_mode_active = s.smm_mode_active ∧
    (updateServoPositions s now).knobs_disabled = s.knobs_disabled ∧
    (updateServoPositions s now).scroll_active = s.scroll_active ∧
    (updateServoPositions s now).like_active = s.like_active ∧
    (updateServoPositions s now).dubious_active = s.dubious_active ∧
    (updateServoPositions s now).scroll_step = s.scroll_step := by
  refine ⟨?_, ?_, ?_, ?_, ?_, ?_, ?_, ?_, ?_, ?_, ?_, ?_, ?_⟩ <;>
    (simp only [updateServoPositions]; split_ifs <;> rfl)

/-- Field effects of executeScroll: the semi-Markov observables, the mode
flag, the knob flag and the other gesture flags are untouched; the scroll
flag is either preserved or cleared. -/
theorem executeScroll_effects (s : MachineState) (now : ℕ) :
    smmObs (executeScroll s now) = smmObs s ∧
    (executeScroll s now).smm_mode_active = s.smm_mode_active ∧
    (executeScroll s now).knobs_disabled = s.knobs_disabled ∧
    (executeScroll s now).like_active = s.like_active ∧
    (executeScroll s now).dubious_active = s.dubious_active ∧
    ((executeScroll s now).scroll_active = s.scroll_active ∨
      (executeScroll s now).scroll_active = false) := by
  obtain ⟨u1, u2, u3, u4, u5, u6, u7, u8, u9, u10, u11, u12, u13⟩ :=
    updateServoPositions_effects s now
  refine ⟨?_, ?_, ?_, ?_, ?_, ?_⟩ <;>
    (simp only [executeScroll]
     split_ifs <;>
      simp [smmObs, smoothMoveServos, writeY, writeZ,
        u1, u2, u3, u4, u5, u6, u7, u8, u9, u10, u11, u12, u13])

/-- Field effects of executeLike: the semi-Markov observables and the mode
flag are untouched, the other gesture flags are untouched, the knob flag
is preserved or set, the like flag is preserved or cleared. -/
theorem executeLike_effects (s : MachineState) (now : ℕ) :
    smmObs (executeLike s now) = smmObs s ∧
    (executeLike s now).smm_mode_active = s.smm_mode_active ∧
    ((executeLike s now).knobs_disabled = s.knobs_disabled ∨
      (executeLike s now).knobs_disabled = true) ∧
    (executeLike s now).scroll_active = s.scroll_active ∧
    (executeLike s now).dubious_active = s.dubious_active ∧
    ((executeLike s now).like_active = s.like_active ∨
      (executeLike s now).like_active = false) := by
  refine ⟨?_, ?_, ?_, ?_, ?_, ?_⟩ <;>
    (simp only [executeLike]
     split_ifs <;> first | rfl | exact Or.inl rfl | exact Or.inr rfl)

/-- Field effects of dubiousWaitStep: only the wait bookkeeping and the
step index change. -/
theorem dubiousWaitStep_effects (now r1 : ℕ) (t : MachineState) :
    smmObs (dubiousWaitStep now r1 t) = smmObs t ∧
    (dubiousWaitStep now r1 t).smm_mode_active = t.smm_mode_active ∧
    (dubiousWaitStep now r1 t).knobs_disabled = t.knobs_disabled ∧
    (dubiousWaitStep now r1 t).scroll_active = t.scroll_active ∧
    (dubiousWaitStep now r1 t).like_active = t.like_active ∧
    (dubiousWaitStep now r1 t).dubious_active = t.dubious_active := by
  refine ⟨?_, ?_, ?_, ?_, ?_, ?_⟩ <;>
    (simp only [dubiousWaitStep, dubiousAdv]
     split_ifs <;> rfl)

set_option maxHeartbeats 1000000 in
/-- Field effects of executeDubious: the semi-Markov observables and the
mode flag are untouched, the other gesture flags are untouched, the knob
flag is preserved or set, the dubious flag is preserved or cleared. -/
theorem executeDubious_effects (s : MachineState) (now r1 : ℕ) :
    smmObs (executeDubious s now r1) = smmObs s ∧
    (executeDubious s now r1).smm_mode_active = s.smm_mode_active ∧
    ((executeDubious s now r1).knobs_disabled = s.knobs_disabled ∨
      (executeDubious s now r1).knobs_disabled = true) ∧
    (executeDubious s now r1).scroll_active = s.scroll_active ∧
    (executeDubious s now r1).like_active = s.like_active ∧
    ((executeDubious s now r1).dubious_active = s.dubious_active ∨
      (executeDubious s now r1).dubious_active = false) := by
  obtain ⟨w1, w2, w3, w4, w5, w6⟩ := dubiousWaitStep_effects now r1 s
  refine ⟨?_, ?_, ?_, ?_, ?_, ?_⟩ <;>
    (simp only [executeDubious]
     split_ifs <;>
       first
         | exact w1 | exact w2 | exact w4 | exact w5
         | exact Or.inl w3 | exact Or.inl w6
         | rfl | exact Or.inl rfl | exact Or.inr rfl)

/-- Field effects of passthrough: only the smoothing state, the previous
angles and the write log change. -/
theorem passthrough_effects (s : MachineState) (pot_y pot_z : ℤ) :
    smmObs (passthrough s pot_y pot_z) = smmObs s ∧
    (passthrough s pot_y pot_z).smm_mode_active = s.smm_mode_active ∧
    (passthrough s pot_y pot_z).knobs_disabled = s.knobs_disabled ∧
    (passthrough s pot_y pot_z).scroll_active = s.scroll_active ∧
    (passthrough s pot_y pot_z).like_active = s.like_active ∧
    (passthrough s pot_y pot_z).dubious_active = s.dubious_active := by
  refine ⟨?_, ?_, ?_, ?_, ?_, ?_⟩ <;>
    (simp only [passthrough]
     split_ifs <;> rfl)

/-- Field effects of smmStep: the mode flag is untouched, the knob flag is
preserved or set, and from a state with no gesture active at most one
gesture flag is set afterwards. -/
theorem smmStep_effects (cfg : SmmConfig) (s : MachineState) (now r1 r2 : ℕ) :
    (smmStep cfg s now r1 r2).smm_mode_active = s.smm_mode_active ∧
    ((smmStep cfg s now r1 r2).knobs_disabled = s.knobs_disabled ∨
      (smmStep cfg s now r1 r2).knobs_disabled = true) ∧
    (s.scroll_active = false → s.like_active = false → s.dubious_active = false →
      activeCount (smmStep cfg s now r1 r2) ≤ 1) := by
  refine ⟨?_, ?_, ?_⟩
  · simp only [smmStep, execute_smm_action, select_next_action]
    split_ifs <;> rfl
  · simp only [smmStep, execute_smm_action, select_next_action]
    split_ifs <;> first | exact Or.inl rfl | exact Or.inr rfl
  · intro hs hl hd
    simp only [smmStep, execute_smm_action, select_next_action]
    split_ifs <;> simp [activeCount, hs, hl, hd]

/-- A serial command other than reset, and other than a mode toggle issued
while autonomous mode is on, leaves a disabled knob flag disabled. -/
theorem processCommand_knobs (s : MachineState) (c : Char) (now : ℕ)
    (hk : s.knobs_disabled = true) (hr : c ≠ 'r') (hR : c ≠ 'R')
    (hm : (c = 'm' ∨ c = 'M') → s.smm_mode_active = false) :
    (processCommand s c now).knobs_disabled = true := by
  simp only [processCommand]
  split_ifs <;> first | rfl | exact hk | simp_all

/-- The body of loop() after the serial phase never clears the knob flag. -/
theorem loopTail_knobs (cfg : SmmConfig) (s : MachineState) (inp : LoopInput)
    (hk : s.knobs_disabled = true) :
    (loopTail cfg s inp).knobs_disabled = true := by
  have hes := (executeScroll_effects s inp.now).2.2.1
  have hel := (executeLike_effects s inp.now).2.2.1
  have hed := (executeDubious_effects s inp.now inp.r1).2.2.1
  have hsm := (smmStep_effects cfg s inp.now inp.r1 inp.r2).2.1
  have hps := (passthrough_effects s inp.pot_y inp.pot_z).2.2.1
  have hsm2 :=
    (smmStep_effects cfg (passthrough s inp.pot_y inp.pot_z) inp.now inp.r1 inp.r2).2.1
  simp only [loopTail, hk]
  split_ifs <;>
    first
      | exact hes.trans hk
      | exact hel.elim (fun h => h.trans hk) fun h => h
      | exact hed.elim (fun h => h.trans hk) fun h => h
      | exact hsm.elim (fun h => h.trans hk) fun h => h
      | exact hsm2.elim (fun h => (h.trans hps).trans hk) fun h => h
      | exact hps.trans hk
      | exact hk

/-- C2 amended: once the knob flag is disabled it stays disabled across any
loop iteration whose serial input is not the reset command and not a mode
toggle issued while autonomous mode is on; in particular it survives
gesture completions and the toggle that turns autonomous mode on.  (The
toggle that turns autonomous mode off, and the reset command, do re-enable
the passthrough.) -/
theorem knobs_disabled_persists_without_reset_or_mode_off
    (cfg : SmmConfig) (s : MachineState) (inp : LoopInput)
    (hk : s.knobs_disabled = true)
    (hr : inp.serial ≠ some 'r') (hR : inp.serial ≠ some 'R')
    (hm : (inp.serial = some 'm' ∨ inp.serial = some 'M') → s.smm_mode_active = false) :
    (loopStep cfg s inp).knobs_disabled = true := by
  have hk2 : (applySerial s inp).knobs_disabled = true := by
    unfold applySerial
    cases hser : inp.serial with
    | none => exact hk
    | some c =>
      refine processCommand_knobs s c inp.now hk ?_ ?_ ?_
      · rintro rfl; exact hr hser
      · rintro rfl; exact hR hser
      · intro h
        apply hm
        rcases h with rfl | rfl
        · exact Or.inl hser
        · exact Or.inr hser
  exact loopTail_knobs cfg _ inp hk2

/-- Witness for knobs_disabled_persists_without_reset_or_mode_off: after
the Like completion the mode-on toggle keeps the knobs disabled. -/
theorem knobs_disabled_persists_witness :
    likeDoneState.knobs_disabled = true ∧
    (loopStep specConfig likeDoneState (mkInput (some 'm') 1600)).knobs_disabled = true :=
  ⟨by decide,
    knobs_disabled_persists_without_reset_or_mode_off specConfig likeDoneState
      (mkInput (some 'm') 1600) (by decide) (by decide) (by decide)
      (fun h => by decide)⟩

/-- C7: in every loop iteration the semi-Markov observables change only
when, after the serial phase, autonomous mode is active, no gesture flag
is set and the knobs are disabled; when a gesture flag is set the
iteration runs exactly that gesture sequencer and nothing else. -/
theorem smm_advances_only_when_idle (cfg : SmmConfig) (s : MachineState) (inp : LoopInput) :
    (¬((applySerial s inp).smm_mode_active = true ∧
        (applySerial s inp).scroll_active = false ∧
        (applySerial s inp).like_active = false ∧
        (applySerial s inp).dubious_active = false ∧
        (applySerial s inp).knobs_disabled = true) →
      smmObs (loopStep cfg s inp) = smmObs (applySerial s inp)) ∧
    ((applySerial s inp).scroll_active = true →
      loopStep cfg s inp = executeScroll (applySerial s inp) inp.now) ∧
    ((applySerial s inp).scroll_active = false → (applySerial s inp).like_active = true →
      loopStep cfg s inp = executeLike (applySerial s inp) inp.now) ∧
    ((applySerial s inp).scroll_active = false → (applySerial s inp).like_active = false →
      (applySerial s inp).dubious_active = true →
      loopStep cfg s inp = executeDubious (applySerial s inp) inp.now inp.r1) := by
  refine ⟨?_, ?_, ?_, ?_⟩
  · intro hguard
    have e1 := executeScroll_effects (applySerial s inp) inp.now
    have e2 := executeLike_effects (applySerial s inp) inp.now
    have e3 := executeDubious_effects (applySerial s inp) inp.now inp.r1
    have e4 := passthrough_effects (applySerial s inp) inp.pot_y inp.pot_z
    by_cases h1 : (applySerial s inp).scroll_active = true
    · simpa [loopStep, loopTail, h1] using e1.1
    · have h1f : (applySerial s inp).scroll_active = false := by simpa using h1
      by_cases h2 : (applySerial s inp).like_active = true
      · simpa [loopStep, loopTail, h1f, h2] using e2.1
      · have h2f : (applySerial s inp).like_active = false := by simpa using h2
        by_cases h3 : (applySerial s inp).dubious_active = true
        · simpa [loopStep, loopTail, h1f, h2f, h3] using e3.1
        · have h3f : (applySerial s inp).dubious_active = false := by simpa using h3
          by_cases h4 : (applySerial s inp).knobs_disabled = true
          · have h5 : (applySerial s inp).smm_mode_active = false := by
              rcases Bool.eq_false_or_eq_true (applySerial s inp).smm_mode_active with h | h
              · exact absurd ⟨h, h1f, h2f, h3f, h4⟩ hguard
              · exact h
            simp [loopStep, loopTail, h1f, h2f, h3f, h4, h5]
          · have h4f : (applySerial s inp).knobs_disabled = false := by simpa using h4
            simpa [loopStep, loopTail, h1f, h2f, h3f, h4f,
              e4.2.2.1, e4.2.2.2.1, e4.2.2.2.2.1, e4.2.2.2.2.2] using e4.1
  · intro h1
    simp [loopStep, loopTail, h1]
  · intro h1 h2
    simp [loopStep, loopTail, h1, h2]
  · intro h1 h2 h3
    simp [loopStep, loopTail, h1, h2, h3]

/-- Witness for smm_advances_only_when_idle: with the Like gesture active
after the semi-Markov Like action fired, the iteration runs executeLike. -/
theorem smm_advances_only_when_idle_witness :
    (applySerial likeFiredState (mkInput none 100)).scroll_active = false ∧
    (applySerial likeFiredState (mkInput none 100)).like_active = true ∧
    loopStep specConfig likeFiredState (mkInput none 100) =
      executeLike (applySerial likeFiredState (mkInput none 100)) (mkInput none 100).now :=
  ⟨by decide, by decide,
    (smm_advances_only_when_idle specConfig likeFiredState (mkInput none 100)).2.2.1
      (by decide) (by decide)⟩

/-- executeScroll never increases the number of active gesture flags. -/
theorem executeScroll_activeCount (s : MachineState) (now : ℕ) :
    activeCount (executeScroll s now) ≤ activeCount s := by
  obtain ⟨_, _, _, s4, s5, s6⟩ := executeScroll_effects s now
  unfold activeCount
  rcases s6 with h6 | h6 <;> rw [s4, s5, h6]
  simp only [Bool.toNat_false]
  omega

/-- executeLike never increases the number of active gesture flags. -/
theorem executeLike_activeCount (s : MachineState) (now : ℕ) :
    activeCount (executeLike s now) ≤ activeCount s := by
  obtain ⟨_, _, _, l4, l5, l6⟩ := executeLike_effects s now
  unfold activeCount
  rcases l6 with h6 | h6 <;> rw [l4, l5, h6]
  simp only [Bool.toNat_false]
  omega

/-- executeDubious never increases the number of active gesture flags. -/
theorem executeDubious_activeCount (s : MachineState) (now r1 : ℕ) :
    activeCount (executeDubious s now r1) ≤ activeCount s := by
  obtain ⟨_, _, _, d4, d5, d6⟩ := executeDubious_effects s now r1
  unfold activeCount
  rcases d6 with h6 | h6 <;> rw [d4, d5, h6]
  simp only [Bool.toNat_false]
  omega

/-- passthrough does not change the number of active gesture flags. -/
theorem passthrough_activeCount (s : MachineState) (pot_y pot_z : ℤ) :
    activeCount (passthrough s pot_y pot_z) = activeCount s := by
  obtain ⟨_, _, _, p4, p5, p6⟩ := passthrough_effects s pot_y pot_z
  unfold activeCount
  rw [p4, p5, p6]

/-- The serial command dispatch preserves gesture-flag mutual exclusion:
each manual start is guarded on all three flags being clear. -/
theorem processCommand_atMostOne (s : MachineState) (c : Char) (now : ℕ)
    (h : atMostOneGesture s) : atMostOneGesture (processCommand s c now) := by
  unfold atMostOneGesture activeCount at *
  simp only [processCommand]
  split_ifs <;> simp_all

/-- The loop body preserves gesture-flag mutual exclusion. -/
theorem loopTail_atMostOne (cfg : SmmConfig) (s : MachineState) (inp : LoopInput)
    (h : atMostOneGesture s) : atMostOneGesture (loopTail cfg s inp) := by
  unfold atMostOneGesture at *
  simp only [loopTail]
  split_ifs <;>
    first
      | exact le_trans (executeScroll_activeCount s inp.now) h
      | exact le_trans (executeLike_activeCount s inp.now) h
      | exact le_trans (executeDubious_activeCount s inp.now inp.r1) h
      | (rename_i hg
         simp only [Bool.and_eq_true, Bool.not_eq_true'] at hg
         exact (smmStep_effects cfg (passthrough s inp.pot_y inp.pot_z)
            inp.now inp.r1 inp.r2).2.2 hg.1.1.1.2 hg.1.1.2 hg.1.2)
      | (rename_i hg
         simp only [Bool.and_eq_true, Bool.not_eq_true'] at hg
         exact (smmStep_effects cfg s inp.now inp.r1 inp.r2).2.2
            hg.1.1.1.2 hg.1.1.2 hg.1.2)
      | (rw [passthrough_activeCount]; exact h)
      | exact h

/-- C9: in every reachable state at most one of the three gesture-active
flags is set: manual starts and the semi-Markov action both fire only when
all three are clear, each start sets exactly one, and completion or reset
clears them. -/
theorem gesture_flags_mutually_exclusive (cfg : SmmConfig) (s : MachineState)
    (h : Reachable cfg s) : atMostOneGesture s := by
  induction h with
  | init py pz =>
    unfold atMostOneGesture activeCount initialState
    simp
  | step inp hr ih =>
    unfold loopStep
    apply loopTail_atMostOne
    unfold applySerial
    cases hser : inp.serial with
    | none => exact ih
    | some c => exact processCommand_atMostOne _ c inp.now ih

/-- Witness for gesture_flags_mutually_exclusive at the initial state. -/
theorem gesture_flags_mutually_exclusive_witness :
    atMostOneGesture (initialState 0 0) :=
  gesture_flags_mutually_exclusive specConfig (initialState 0 0)
    (Reachable.init 0 0)

/-- The serial command dispatch preserves the mode-implies-knobs-disabled
invariant: the mode-on toggle disables the knobs, and both operations that
re-enable the knobs also deactivate autonomous mode. -/
theorem processCommand_modeKnobs (s : MachineState) (c : Char) (now : ℕ)
    (h : modeImpliesKnobs s) : modeImpliesKnobs (processCommand s c now) := by
  unfold modeImpliesKnobs at *
  simp only [processCommand]
  split_ifs <;> intro hm <;> simp_all

/-- The loop body preserves the mode-implies-knobs-disabled invariant. -/
theorem loopTail_modeKnobs (cfg : SmmConfig) (s : MachineState) (inp : LoopInput)
    (h : modeImpliesKnobs s) : modeImpliesKnobs (loopTail cfg s inp) := by
  obtain ⟨_, s2, s3, _, _, _⟩ := executeScroll_effects s inp.now
  obtain ⟨_, l2, l3, _, _, _⟩ := executeLike_effects s inp.now
  obtain ⟨_, d2, d3, _, _, _⟩ := executeDubious_effects s inp.now inp.r1
  obtain ⟨_, p2, p3, _, _, _⟩ := passthrough_effects s inp.pot_y inp.pot_z
  obtain ⟨_, m2, _⟩ := smmStep_effects cfg s inp.now inp.r1 inp.r2
  obtain ⟨_, q2, _⟩ :=
    smmStep_effects cfg (passthrough s inp.pot_y inp.pot_z) inp.now inp.r1 inp.r2
  unfold modeImpliesKnobs at *
  simp only [loopTail]
  split_ifs <;> intro hm <;>
    first
      | exact s3.trans (h (s2.symm.trans hm))
      | exact l3.elim (fun e => e.trans (h (l2.symm.trans hm))) id
      | exact d3.elim (fun e => e.trans (h (d2.symm.trans hm))) id
      | (rename_i hg
         simp only [Bool.and_eq_true, Bool.not_eq_true'] at hg
         first
           | exact m2.elim (fun e => e.trans hg.2) id
           | exact q2.elim (fun e => e.trans hg.2) id)
      | exact p3.trans (h (p2.symm.trans hm))
      | exact h hm

/-- C10: in every reachable state, active autonomous mode implies the
knob passthrough flag is disabled: enabling the mode disables the knobs,
every autonomous action keeps them disabled, and the only operations that
re-enable them (the mode-off toggle and the reset command) also clear the
mode flag. -/
theorem smm_mode_implies_knobs_disabled (cfg : SmmConfig) (s : MachineState)
    (h : Reachable cfg s) : modeImpliesKnobs s := by
  induction h with
  | init py pz =>
    unfold modeImpliesKnobs initialState
    simp
  | step inp hr ih =>
    unfold loopStep
    apply loopTail_modeKnobs
    unfold applySerial
    cases hser : inp.serial with
    | none => exact ih
    | some c => exact processCommand_modeKnobs _ c inp.now ih

/-- Witness for smm_mode_implies_knobs_disabled at the initial state. -/
theorem smm_mode_implies_knobs_disabled_witness :
    modeImpliesKnobs (initialState 0 0) :=
  smm_mode_implies_knobs_disabled specConfig (initialState 0 0)
    (Reachable.init 0 0)

/-- Truncation toward zero is monotone. -/
theorem ratTrunc_mono {x y : ℚ} (h : x ≤ y) : ratTrunc x ≤ ratTrunc y := by
  unfold ratTrunc
  by_cases hx : 0 ≤ x
  · rw [if_pos hx, if_pos (hx.trans h)]
    exact Int.floor_le_floor h
  · rw [if_neg hx]
    by_cases hy : 0 ≤ y
    · rw [if_pos hy]
      calc ⌈x⌉ ≤ 0 := Int.ceil_le.mpr (by exact_mod_cast le_of_not_le hx)
        _ ≤ ⌊y⌋ := Int.le_floor.mpr (by exact_mod_cast hy)
    · rw [if_neg hy]
      exact Int.ceil_le_ceil h

/-- Truncation toward zero fixes integers. -/
theorem ratTrunc_intCast (n : ℤ) : ratTrunc (n : ℚ) = n := by
  unfold ratTrunc
  split_ifs
  · exact Int.floor_intCast n
  · exact Int.ceil_intCast n

/-- Linear interpolation from st toward t is monotone in elapsed time when
st is at or below t. -/
theorem interp_mono_up (st t : ℤ) (D e1 e2 : ℕ) (h12 : e1 ≤ e2) (h : st ≤ t) :
    st + ratTrunc (((t - st : ℤ) : ℚ) * ((e1 : ℚ) / (D : ℚ))) ≤
      st + ratTrunc (((t - st : ℤ) : ℚ) * ((e2 : ℚ) / (D : ℚ))) := by
  apply add_le_add_left
  apply ratTrunc_mono
  apply mul_le_mul_of_nonneg_left
  · apply div_le_div_of_nonneg_right ?_ ?_
    · exact_mod_cast h12
    · exact_mod_cast Nat.zero_le D
  · exact_mod_cast sub_nonneg.mpr h

/-- Linear interpolation from st up toward t never overshoots t. -/
theorem interp_le_target (st t : ℤ) (D e : ℕ) (heD : e ≤ D) (h : st ≤ t) :
    st + ratTrunc (((t - st : ℤ) : ℚ) * ((e : ℚ) / (D : ℚ))) ≤ t := by
  have hq : ((t - st : ℤ) : ℚ) * ((e : ℚ) / (D : ℚ)) ≤ ((t - st : ℤ) : ℚ) := by
    rcases Nat.eq_zero_or_pos D with hD | hD
    · simp [hD]
      exact_mod_cast h
    · have h1 : (e : ℚ) / (D : ℚ) ≤ 1 := by
        rw [div_le_one (by exact_mod_cast hD)]
        exact_mod_cast heD
      calc ((t - st : ℤ) : ℚ) * ((e : ℚ) / (D : ℚ))
          ≤ ((t - st : ℤ) : ℚ) * 1 :=
            mul_le_mul_of_nonneg_left h1 (by exact_mod_cast sub_nonneg.mpr h)
        _ = ((t - st : ℤ) : ℚ) := mul_one _
  have := ratTrunc_mono hq
  rw [ratTrunc_intCast] at this
  omega

/-- Linear interpolation from st down toward t is antitone in elapsed time
when t is at or below st. -/
theorem interp_mono_down (st t : ℤ) (D e1 e2 : ℕ) (h12 : e1 ≤ e2) (h : t ≤ st) :
    st + ratTrunc (((t - st : ℤ) : ℚ) * ((e2 : ℚ) / (D : ℚ))) ≤
      st + ratTrunc (((t - st : ℤ) : ℚ) * ((e1 : ℚ) / (D : ℚ))) := by
  apply add_le_add_left
  apply ratTrunc_mono
  apply mul_le_mul_of_nonpos_left
  · apply div_le_div_of_nonneg_right ?_ ?_
    · exact_mod_cast h12
    · exact_mod_cast Nat.zero_le D
  · exact_mod_cast sub_nonpos.mpr h

/-- Linear interpolation from st down toward t never undershoots t. -/
theorem interp_ge_target (st t : ℤ) (D e : ℕ) (heD : e ≤ D) (h : t ≤ st) :
    t ≤ st + ratTrunc (((t - st : ℤ) : ℚ) * ((e : ℚ) / (D : ℚ))) := by
  have hq : ((t - st : ℤ) : ℚ) ≤ ((t - st : ℤ) : ℚ) * ((e : ℚ) / (D : ℚ)) := by
    rcases Nat.eq_zero_or_pos D with hD | hD
    · simp [hD]
      exact_mod_cast h
    · have h1 : (e : ℚ) / (D : ℚ) ≤ 1 := by
        rw [div_le_one (by exact_mod_cast hD)]
        exact_mod_cast heD
      calc ((t - st : ℤ) : ℚ)
          = ((t - st : ℤ) : ℚ) * 1 := (mul_one _).symm
        _ ≤ ((t - st : ℤ) : ℚ) * ((e : ℚ) / (D : ℚ)) :=
            mul_le_mul_of_nonpos_left h1 (by exact_mod_cast sub_nonpos.mpr h)
  have := ratTrunc_mono hq
  rw [ratTrunc_intCast] at this
  omega

/-- A tick at or past the table duration snaps to the target, writes both
channels and clears the in-progress flag. -/
theorem updateServo_snap (s : MachineState) (e : ℕ) (hip : s.step_in_progress = true)
    (h5 : s.scroll_step < 5) (hD : scroll_step_delays s.scroll_step ≤ e) :
    updateServoPositions s (s.step_start_time + e) =
      { s with
        current_y := s.target_y
        current_z := s.target_z
        step_in_progress := false
        writes := (ServoChannel.z, s.target_z) :: (ServoChannel.y, s.target_y) :: s.writes } := by
  simp [updateServoPositions, writeY, writeZ, hip, Nat.not_le.mpr h5,
    Nat.add_sub_cancel_left, hD]

/-- A tick strictly before the table duration interpolates the Y channel
linearly with integer truncation toward the start value. -/
theorem updateServo_interp_y (s : MachineState) (e : ℕ) (hip : s.step_in_progress = true)
    (h5 : s.scroll_step < 5) (he : e < scroll_step_delays s.scroll_step) :
    (updateServoPositions s (s.step_start_time + e)).current_y =
      s.start_y + ratTrunc (((s.target_y - s.start_y : ℤ) : ℚ) *
        ((e : ℚ) / ((scroll_step_delays s.scroll_step : ℕ) : ℚ))) := by
  simp [updateServoPositions, writeY, writeZ, hip, Nat.not_le.mpr h5,
    Nat.add_sub_cancel_left, Nat.not_le.mpr he]

/-- A tick strictly before the table duration interpolates the Z channel
linearly with integer truncation toward the start value. -/
theorem updateServo_interp_z (s : MachineState) (e : ℕ) (hip : s.step_in_progress = true)
    (h5 : s.scroll_step < 5) (he : e < scroll_step_delays s.scroll_step) :
    (updateServoPositions s (s.step_start_time + e)).current_z =
      s.start_z + ratTrunc (((s.target_z - s.start_z : ℤ) : ℚ) *
        ((e : ℚ) / ((scroll_step_delays s.scroll_step : ℕ) : ℚ))) := by
  simp [updateServoPositions, writeY, writeZ, hip, Nat.not_le.mpr h5,
    Nat.add_sub_cancel_left, Nat.not_le.mpr he]

/-- C3 counterexample: the Scroll step-0 move requests duration
scroll_step_delays[0] = 200, but a tick 250 ms after the move began (past
the requested duration) finds the move still in progress and the position
at 135, not the 142 target: the interpolator is reading
scroll_step_delays[scroll_step] = scroll_step_delays[1] = 300, because
executeScroll already advanced scroll_step and smoothMoveServos discarded
the requested duration. -/
theorem requested_duration_not_used :
    scroll_step_delays 0 = 200 ∧
    scrollMoveBegun.step_start_time = 1000 ∧
    scrollMoveBegun.target_y = 142 ∧
    scrollMoveTick.step_in_progress = true ∧
    scrollMoveTick.current_y = 135 := by
  refine ⟨by decide, by decide, by decide, by decide, ?_⟩
  have h : (1250 : ℕ) = scrollMoveBegun.step_start_time + 250 := by decide
  have h2 : scrollMoveTick = updateServoPositions scrollMoveBegun 1250 := rfl
  rw [h2, h, updateServo_interp_y scrollMoveBegun 250 (by decide) (by decide) (by decide)]
  have hsy : scrollMoveBegun.start_y = 100 := by decide
  have hty : scrollMoveBegun.target_y = 142 := by decide
  have hss : scrollMoveBegun.scroll_step = 1 := by decide
  rw [hsy, hty, hss]
  norm_num [ratTrunc, scroll_step_delays]

/-- C3 amended: the interpolator uses scroll_step_delays[scroll_step]
(read at tick time) as the move duration, not the duration passed to
smoothMoveServos; with D that table entry, any tick at or past start + D
snaps both channels exactly to the target, writes both channels and clears
the in-progress flag, and ticks at e1 <= e2 <= D make monotonic progress
from the start value toward the target on both channels. -/
theorem interpolator_uses_step_table_duration (s : MachineState) (e1 e2 : ℕ)
    (hip : s.step_in_progress = true) (h5 : s.scroll_step < 5) :
    (scroll_step_delays s.scroll_step ≤ e2 →
      updateServoPositions s (s.step_start_time + e2) =
        { s with
          current_y := s.target_y
          current_z := s.target_z
          step_in_progress := false
          writes := (ServoChannel.z, s.target_z) :: (ServoChannel.y, s.target_y) :: s.writes }) ∧
    (e1 ≤ e2 → e2 ≤ scroll_step_delays s.scroll_step →
      ((s.start_y ≤ s.target_y →
          (updateServoPositions s (s.step_start_time + e1)).current_y ≤
            (updateServoPositions s (s.step_start_time + e2)).current_y ∧
          (updateServoPositions s (s.step_start_time + e2)).current_y ≤ s.target_y) ∧
        (s.target_y ≤ s.start_y →
          (updateServoPositions s (s.step_start_time + e2)).current_y ≤
            (updateServoPositions s (s.step_start_time + e1)).current_y ∧
          s.target_y ≤ (updateServoPositions s (s.step_start_time + e2)).current_y) ∧
        (s.start_z ≤ s.target_z →
          (updateServoPositions s (s.step_start_time + e1)).current_z ≤
            (updateServoPositions s (s.step_start_time + e2)).current_z ∧
          (updateServoPositions s (s.step_start_time + e2)).current_z ≤ s.target_z) ∧
        (s.target_z ≤ s.start_z →
          (updateServoPositions s (s.step_start_time + e2)).current_z ≤
            (updateServoPositions s (s.step_start_time + e1)).current_z ∧
          s.target_z ≤ (updateServoPositions s (s.step_start_time + e2)).current_z))) := by
  constructor
  · intro hD2
    exact updateServo_snap s e2 hip h5 hD2
  · intro h12 h2D
    by_cases hlt2 : e2 < scroll_step_delays s.scroll_step
    · have hlt1 : e1 < scroll_step_delays s.scroll_step := lt_of_le_of_lt h12 hlt2
      refine ⟨?_, ?_, ?_, ?_⟩
      · intro hdir
        rw [updateServo_interp_y s e1 hip h5 hlt1, updateServo_interp_y s e2 hip h5 hlt2]
        exact ⟨interp_mono_up _ _ _ e1 e2 h12 hdir,
          interp_le_target _ _ _ e2 h2D hdir⟩
      · intro hdir
        rw [updateServo_interp_y s e1 hip h5 hlt1, updateServo_interp_y s e2 hip h5 hlt2]
        exact ⟨interp_mono_down _ _ _ e1 e2 h12 hdir,
          interp_ge_target _ _ _ e2 h2D hdir⟩
      · intro hdir
        rw [updateServo_interp_z s e1 hip h5 hlt1, updateServo_interp_z s e2 hip h5 hlt2]
        exact ⟨interp_mono_up _ _ _ e1 e2 h12 hdir,
          interp_le_target _ _ _ e2 h2D hdir⟩
      · intro hdir
        rw [updateServo_interp_z s e1 hip h5 hlt1, updateServo_interp_z s e2 hip h5 hlt2]
        exact ⟨interp_mono_down _ _ _ e1 e2 h12 hdir,
          interp_ge_target _ _ _ e2 h2D hdir⟩
    · have he2 : e2 = scroll_step_delays s.scroll_step := le_antisymm h2D (not_lt.mp hlt2)
      have hsnap := updateServo_snap s e2 hip h5 (he2 ▸ le_refl _)
      have hy2 : (updateServoPositions s (s.step_start_time + e2)).current_y = s.target_y := by
        rw [hsnap]
      have hz2 : (updateServoPositions s (s.step_start_time + e2)).current_z = s.target_z := by
        rw [hsnap]
      by_cases hlt1 : e1 < scroll_step_delays s.scroll_step
      · refine ⟨?_, ?_, ?_, ?_⟩
        · intro hdir
          rw [hy2, updateServo_interp_y s e1 hip h5 hlt1]
          exact ⟨interp_le_target _ _ _ e1 (le_of_lt hlt1) hdir, le_refl _⟩
        · intro hdir
          rw [hy2, updateServo_interp_y s e1 hip h5 hlt1]
          exact ⟨interp_ge_target _ _ _ e1 (le_of_lt hlt1) hdir, le_refl _⟩
        · intro hdir
          rw [hz2, updateServo_interp_z s e1 hip h5 hlt1]
          exact ⟨interp_le_target _ _ _ e1 (le_of_lt hlt1) hdir, le_refl _⟩
        · intro hdir
          rw [hz2, updateServo_interp_z s e1 hip h5 hlt1]
          exact ⟨interp_ge_target _ _ _ e1 (le_of_lt hlt1) hdir, le_refl _⟩
      · have he1 : e1 = scroll_step_delays s.scroll_step :=
          le_antisymm (h12.trans h2D) (not_lt.mp hlt1)
        have hsnap1 := updateServo_snap s e1 hip h5 (he1 ▸ le_refl _)
        have hy1 : (updateServoPositions s (s.step_start_time + e1)).current_y = s.target_y := by
          rw [hsnap1]
        have hz1 : (updateServoPositions s (s.step_start_time + e1)).current_z = s.target_z := by
          rw [hsnap1]
        exact ⟨fun _ => ⟨by rw [hy1, hy2], by rw [hy2]⟩,
          fun _ => ⟨by rw [hy1, hy2], by rw [hy2]⟩,
          fun _ => ⟨by rw [hz1, hz2], by rw [hz2]⟩,
          fun _ => ⟨by rw [hz1, hz2], by rw [hz2]⟩⟩

/-- Witness for interpolator_uses_step_table_duration on the begun Scroll
move (scroll_step = 1, table duration 300) at ticks 150 and 300. -/
theorem interpolator_uses_step_table_duration_witness :
    (scrollMoveBegun.step_in_progress = true ∧ scrollMoveBegun.scroll_step < 5 ∧
      (150 : ℕ) ≤ 300 ∧ (300 : ℕ) ≤ scroll_step_delays scrollMoveBegun.scroll_step ∧
      scrollMoveBegun.start_y ≤ scrollMoveBegun.target_y) ∧
    ((updateServoPositions scrollMoveBegun (scrollMoveBegun.step_start_time + 150)).current_y ≤
        (updateServoPositions scrollMoveBegun (scrollMoveBegun.step_start_time + 300)).current_y ∧
      (updateServoPositions scrollMoveBegun
          (scrollMoveBegun.step_start_time + 300)).current_y ≤ scrollMoveBegun.target_y) :=
  ⟨⟨by decide, by decide, by decide, by decide, by decide⟩,
    ((interpolator_uses_step_table_duration scrollMoveBegun 150 300
        (by decide) (by decide)).2 (by decide) (by decide)).1 (by decide)⟩

/-- The dwell-sampling tick of the scenario cycle: u = 1 triggers the 0.1
dwell floor, so the armed wait lasts 100 ms. -/
theorem smmCycleMid_eq :
    smmCycleMid =
      { smmCycleStart with
        total_dwell_time := 1 / 10
        total_dwell_by_state := ⟨1 / 10, 0, 0⟩
        smm_wait_start := 0
        smm_wait_duration := 100
        smm_waiting := true } := by
  have h100 : (Rat.floor (100 : ℚ)).toNat = 100 := by decide
  norm_num [smmCycleMid, smmCycleStart, loopStep, applySerial, loopTail, smmStep,
    sample_exponential, random_uniform, initialState, MAX_DWELL_TIME,
    StateArr.update, mkInputR, specConfig, StateArr.get, STATE_AFTER_SCROLL, h100]

/-- The action tick of the scenario cycle: r of 24576/32767 falls between
the 0.6 and 0.8 thresholds, so the Like action fires from after_scroll:
the after_scroll counter (slot 0) is incremented and current_state moves
to after_like (1). -/
theorem smmCycleEnd_eq :
    smmCycleEnd =
      { smmCycleStart with
        total_dwell_time := 1 / 10
        total_dwell_by_state := ⟨1 / 10, 0, 0⟩
        smm_wait_start := 0
        smm_wait_duration := 100
        smm_waiting := false
        event_counter := 1
        state_transitions := ⟨1, 0, 0⟩
        use_like2_variant := false
        like_active := true
        like_step := 0
        last_step_time := 100
        current_state := STATE_AFTER_LIKE } := by
  have hmid := smmCycleMid_eq
  show loopStep specConfig smmCycleMid (mkInputR none 100 24576 0) = _
  rw [hmid]
  norm_num [smmCycleStart, loopStep, applySerial, loopTail, smmStep,
    select_next_action, random_uniform, execute_smm_action, arduinoRandom,
    initialState, StateArr.update, StateArr.get, mkInputR, specConfig,
    ACTION_SCROLL, ACTION_LIKE, ACTION_DUBIOUS_SCROLL,
    STATE_AFTER_SCROLL, STATE_AFTER_LIKE, STATE_AFTER_DUBIOUS]

/-- C6 counterexample: one full dwell+action cycle from AfterScroll whose
action is Like ends with current_state = AfterLike (1), yet the AfterLike
transition counter is still 0: the counter incremented is slot 0, the
pre-transition state AfterScroll. -/
theorem post_state_counter_not_incremented :
    smmCycleStart.current_state = STATE_AFTER_SCROLL ∧
    smmCycleStart.state_transitions = ⟨0, 0, 0⟩ ∧
    smmCycleEnd.current_state = STATE_AFTER_LIKE ∧
    smmCycleEnd.state_transitions.s1 = 0 ∧
    smmCycleEnd.state_transitions.s0 = 1 := by
  refine ⟨by decide, by decide, ?_, ?_, ?_⟩ <;> rw [smmCycleEnd_eq]

/-- C6 amended: starting a dwell+action cycle in AfterScroll (autonomous
mode on, knobs disabled, no gesture active, not yet waiting), the first
tick arms the wait, and the tick that fires the action leaves
current_state equal to the state matching the selected action
(Scroll - AfterScroll, Like - AfterLike, DubiousScroll - AfterDubious)
while incrementing the transition counter of the pre-transition state
AfterScroll (slot 0) by exactly one and leaving the other two counters
unchanged. -/
theorem smm_cycle_pre_state_counter (cfg : SmmConfig) (s : MachineState)
    (inp1 inp2 : LoopInput)
    (h1 : inp1.serial = none) (h2 : inp2.serial = none)
    (hmode : s.smm_mode_active = true) (hknobs : s.knobs_disabled = true)
    (hs : s.scroll_active = false) (hl : s.like_active = false)
    (hd : s.dubious_active = false) (hw : s.smm_waiting = false)
    (hstate : s.current_state = STATE_AFTER_SCROLL)
    (hfire : (loopStep cfg s inp1).smm_wait_duration ≤
      inp2.now - (loopStep cfg s inp1).smm_wait_start) :
    (loopStep cfg s inp1).smm_waiting = true ∧
    (loopStep cfg (loopStep cfg s inp1) inp2).current_state =
      select_next_action cfg STATE_AFTER_SCROLL (random_uniform inp2.r1) ∧
    (loopStep cfg (loopStep cfg s inp1) inp2).state_transitions.s0 =
      s.state_transitions.s0 + 1 ∧
    (loopStep cfg (loopStep cfg s inp1) inp2).state_transitions.s1 =
      s.state_transitions.s1 ∧
    (loopStep cfg (loopStep cfg s inp1) inp2).state_transitions.s2 =
      s.state_transitions.s2 ∧
    (loopStep cfg (loopStep cfg s inp1) inp2).event_counter = s.event_counter + 1 := by
  have hmid : loopStep cfg s inp1 =
      { s with
        total_dwell_time := s.total_dwell_time +
          sample_exponential (cfg.DWELL_RATE_BY_STATE.get s.current_state)
            (random_uniform inp1.r1)
        total_dwell_by_state := s.total_dwell_by_state.update s.current_state
          (· + sample_exponential (cfg.DWELL_RATE_BY_STATE.get s.current_state)
            (random_uniform inp1.r1))
        smm_wait_start := inp1.now
        smm_wait_duration :=
          ((sample_exponential (cfg.DWELL_RATE_BY_STATE.get s.current_state)
            (random_uniform inp1.r1)) * 1000).floor.toNat
        smm_waiting := true } := by
    simp [loopStep, applySerial, h1, loopTail, hs, hl, hd, hknobs, hmode, smmStep, hw]
  rw [hmid] at hfire ⊢
  refine ⟨rfl, ?_⟩
  simp [hstate, STATE_AFTER_SCROLL, StateArr.get] at hfire
  have hsel : select_next_action cfg STATE_AFTER_SCROLL (random_uniform inp2.r1) = 0 ∨
      select_next_action cfg STATE_AFTER_SCROLL (random_uniform inp2.r1) = 1 ∨
      select_next_action cfg STATE_AFTER_SCROLL (random_uniform inp2.r1) = 2 := by
    unfold select_next_action ACTION_SCROLL ACTION_LIKE ACTION_DUBIOUS_SCROLL
    split_ifs <;> simp
  rcases hsel with hA | hA | hA <;>
    simp only [STATE_AFTER_SCROLL] at hA <;>
    simp [loopStep, applySerial, h2, loopTail, hs, hl, hd, hknobs, hmode, smmStep,
      hfire, hstate, hA, execute_smm_action, StateArr.update, StateArr.get,
      ACTION_SCROLL, ACTION_LIKE, ACTION_DUBIOUS_SCROLL,
      STATE_AFTER_SCROLL, STATE_AFTER_LIKE, STATE_AFTER_DUBIOUS]

/-- Witness for smm_cycle_pre_state_counter on the concrete scenario
cycle. -/
theorem smm_cycle_pre_state_counter_witness :
    (loopStep specConfig smmCycleStart (mkInputR none 0 32767 0)).smm_waiting = true ∧
    (loopStep specConfig (loopStep specConfig smmCycleStart (mkInputR none 0 32767 0))
        (mkInputR none 100 24576 0)).current_state =
      select_next_action specConfig STATE_AFTER_SCROLL
        (random_uniform (mkInputR none 100 24576 0).r1) ∧
    (loopStep specConfig (loopStep specConfig smmCycleStart (mkInputR none 0 32767 0))
        (mkInputR none 100 24576 0)).state_transitions.s0 =
      smmCycleStart.state_transitions.s0 + 1 ∧
    (loopStep specConfig (loopStep specConfig smmCycleStart (mkInputR none 0 32767 0))
        (mkInputR none 100 24576 0)).state_transitions.s1 =
      smmCycleStart.state_transitions.s1 ∧
    (loopStep specConfig (loopStep specConfig smmCycleStart (mkInputR none 0 32767 0))
        (mkInputR none 100 24576 0)).state_transitions.s2 =
      smmCycleStart.state_transitions.s2 ∧
    (loopStep specConfig (loopStep specConfig smmCycleStart (mkInputR none 0 32767 0))
        (mkInputR none 100 24576 0)).event_counter = smmCycleStart.event_counter + 1 := by
  have hfire : (loopStep specConfig smmCycleStart (mkInputR none 0 32767 0)).smm_wait_duration ≤
      (mkInputR none 100 24576 0).now -
        (loopStep specConfig smmCycleStart (mkInputR none 0 32767 0)).smm_wait_start := by
    have h := smmCycleMid_eq
    unfold smmCycleMid at h
    rw [h]
    decide
  exact smm_cycle_pre_state_counter specConfig smmCycleStart
    (mkInputR none 0 32767 0) (mkInputR none 100 24576 0)
    rfl rfl (by decide) (by decide) (by decide) (by decide) (by decide) (by decide)
    (by decide) hfire

end TpMovimiento
